import Mathlib

/-!
Verification of the uvmm passthrough core (io_proxy / smc device).

The definitions below are a shallow embedding of the C++ source:
pure functions become Lean functions, the mutable process state
(the interrupt controller's source table, the registry of interrupt
endpoints, the ICU bindings, the vbus irq-consumption table, the
`phys_dev_prepared` flag, the registered MMIO regions and the vbus
device table) is passed explicitly, and fallible code returns
`Except Err`.  External collaborators that are not part of the given
sources (Irq_dt_iterator, Virt_bus irq queries, Guest address
validation, the SMC transport) are modelled from the contract the
specification fixes for them; each such definition carries a comment
saying so.
-/

set_option maxRecDepth 4096

/-- Kind of source bound at a virtual interrupt controller line.
`irqSvr io_irq` models a `Vdev::Irq_svr` forwarding endpoint wrapping
physical line `io_irq` (the value returned by `get_io_irq()`);
`other` models any source of a different dynamic type, for which the
`dynamic_cast<Vdev::Irq_svr const *>` in `bind_irq` yields null. -/
inductive IrqSource
  | irqSvr (io_irq : Nat)
  | other
deriving DecidableEq

/-- State of one virtual interrupt controller (`Gic::Ic`): the table of
sources bound per dt line, written by `bind_irq_source` and read by
`get_irq_source`. -/
structure Ic where
  sources : List (Nat × IrqSource)
deriving DecidableEq

/-- `ic->get_irq_source(dt_irq)`: the source currently bound to the line,
null when none. -/
def Ic.get_irq_source (ic : Ic) (dt_irq : Nat) : Option IrqSource :=
  (ic.sources.find? (fun p => p.1 == dt_irq)).map Prod.snd

/-- `ic->bind_irq_source(dt_irq, src)`: record `src` as the downstream
source for the line. -/
def Ic.bind_irq_source (ic : Ic) (dt_irq : Nat) (src : IrqSource) : Ic :=
  ⟨(dt_irq, src) :: ic.sources⟩

/-- Physical-bus state relevant to irq handling.  Modelled from the spec:
`present` are the interrupt lines the bus offers, `consumed` the lines
already claimed (`mark_irq_bound`), `icuBound` the physical lines bound
on the ICU by `vbus->icu()->bind`. -/
structure VbusState where
  present : List Nat
  consumed : List Nat
  icuBound : List Nat
deriving DecidableEq

/-- Modelled from the spec: `vbus->irq_present(l)` holds when line `l` is
available on the physical bus and not yet consumed. -/
def VbusState.irq_present (v : VbusState) (l : Nat) : Bool :=
  v.present.contains l && !(v.consumed.contains l)

/-- `vbus->mark_irq_bound(l)`: mark the physical line consumed. -/
def VbusState.mark_irq_bound (v : VbusState) (l : Nat) : VbusState :=
  { v with consumed := l :: v.consumed }

/-- The mutable state `bind_irq` touches: the controller's source table,
the registry of interrupt-delivery endpoints created so far (the
physical line wrapped by each registered `Irq_svr`,
cf. `registry()->register_irq_obj`), and the vbus. -/
structure BindCtx where
  ic : Ic
  registry : List Nat
  vbus : VbusState
deriving DecidableEq

/-- Abstract error kinds thrown by the passthrough core, following the
spec's taxonomy: `irqConflict` is the `L4_EEXIST` thrown by `bind_irq`
(carrying the bound physical line when the existing source is a
forwarding endpoint, and always the requested line); `configError` is
the fatal `chksys` on a malformed reg/irq descriptor;
`resourceMismatch` is the fatal count/size disagreement between the
vbus device and the device tree node; `undefinedIterAccess` marks the
read of `ic_is_virt()`/`irq()` from an `Irq_dt_iterator` that was never
successfully advanced by `next()`, which no iterator contract defines. -/
inductive Err
  | irqConflict (bound : Option Nat) (requested : Nat)
  | configError
  | resourceMismatch
  | undefinedIterAccess
deriving DecidableEq

/-- Shallow embedding of `bind_irq` (part_000, lines 22-69).
If no source is bound to `dt_irq`: create an `Irq_svr` over `io_irq`,
register it as an irq object, bind `io_irq` on the ICU to it, set its
sink and record it as the controller's source, then eoi (the sink and
the eoi are interactions with the endpoint object itself and leave no
further trace in this state).  If a source is bound: an `Irq_svr` over
the same `io_irq` is an idempotent success; an `Irq_svr` over another
line or a source of a different kind throws `L4_EEXIST`, the former
reporting the bound and the requested lines. -/
def bind_irq (ctx : BindCtx) (dt_irq io_irq : Nat) : Except Err BindCtx :=
  match ctx.ic.get_irq_source dt_irq with
  | none =>
      .ok { ic := ctx.ic.bind_irq_source dt_irq (.irqSvr io_irq)
            registry := io_irq :: ctx.registry
            vbus := { ctx.vbus with icuBound := io_irq :: ctx.vbus.icuBound } }
  | some (.irqSvr bound) =>
      if io_irq = bound then .ok ctx
      else .error (.irqConflict (some bound) io_irq)
  | some .other => .error (.irqConflict none io_irq)

/-- A concrete start state used by the witnesses: nothing bound,
line 5 present on the bus. -/
def ctx0 : BindCtx :=
  { ic := ⟨[]⟩, registry := [], vbus := { present := [5], consumed := [], icuBound := [] } }

/-- A concrete state with an `Irq_svr` over physical line 7 bound to
dt line 3, used by the C2 witness. -/
def ctx1 : BindCtx :=
  { ic := ⟨[(3, .irqSvr 7)]⟩, registry := [7],
    vbus := { present := [7, 9], consumed := [], icuBound := [7] } }

/-- C1: the irq binding protocol is idempotent.  A first `bind_irq` call
for an unbound `(controller, dt_line)` succeeds and registers exactly one
new forwarding endpoint over `io_line` (and exactly one new ICU binding
of `io_line`); a second call with the identical arguments returns the
same state unchanged, so exactly one registered endpoint results from
the pair of calls. -/
theorem bind_irq_idempotent (ctx : BindCtx) (dt_irq io_irq : Nat)
    (h : ctx.ic.get_irq_source dt_irq = none) :
    ∃ ctx', bind_irq ctx dt_irq io_irq = .ok ctx'
      ∧ ctx'.registry = io_irq :: ctx.registry
      ∧ ctx'.vbus.icuBound = io_irq :: ctx.vbus.icuBound
      ∧ ctx'.ic.get_irq_source dt_irq = some (.irqSvr io_irq)
      ∧ bind_irq ctx' dt_irq io_irq = .ok ctx' := by
  refine ⟨{ ic := ctx.ic.bind_irq_source dt_irq (.irqSvr io_irq)
            registry := io_irq :: ctx.registry
            vbus := { ctx.vbus with icuBound := io_irq :: ctx.vbus.icuBound } },
          ?_, rfl, rfl, ?_, ?_⟩
  · unfold bind_irq
    rw [h]
  · simp [Ic.get_irq_source, Ic.bind_irq_source, List.find?]
  · unfold bind_irq
    simp [Ic.get_irq_source, Ic.bind_irq_source, List.find?]

/-- Closed witness for C1 at a concrete input. -/
theorem bind_irq_idempotent_witness :
    ∃ ctx', bind_irq ctx0 3 5 = .ok ctx'
      ∧ ctx'.registry = 5 :: ctx0.registry
      ∧ ctx'.vbus.icuBound = 5 :: ctx0.vbus.icuBound
      ∧ ctx'.ic.get_irq_source 3 = some (.irqSvr 5)
      ∧ bind_irq ctx' 3 5 = .ok ctx' :=
  bind_irq_idempotent ctx0 3 5 (by decide)

/-- C2: a bind request for a line already bound to a forwarding endpoint
over a different physical line fails with IrqConflict reporting both the
bound and the requested physical lines, and produces no new state (the
original binding is untouched); a bound source of a different kind
likewise fails with IrqConflict. -/
theorem bind_irq_conflict (ctx : BindCtx) (dt_irq io_irq bound : Nat) :
    (ctx.ic.get_irq_source dt_irq = some (.irqSvr bound) →
        io_irq ≠ bound →
        bind_irq ctx dt_irq io_irq = .error (.irqConflict (some bound) io_irq))
      ∧ (ctx.ic.get_irq_source dt_irq = some .other →
        bind_irq ctx dt_irq io_irq = .error (.irqConflict none io_irq)) := by
  constructor
  · intro h hne
    unfold bind_irq
    rw [h]
    simp [hne]
  · intro h
    unfold bind_irq
    rw [h]

/-- Result of `Dt_node::get_reg_val` at one index: `ok` carries the
translated guest address and size, the error constructors mirror
`ERR_NOT_TRANSLATABLE`, `ERR_RANGE` and any other negative fdt error.
Indices past the end of the list answer `ERR_BAD_INDEX`, which the
embedding renders as `none` from `List.get?`. -/
inductive RegVal
  | ok (addr size : Nat)
  | notTranslatable
  | errRange
  | errOther
deriving DecidableEq

/-- One entry of a node's interrupt list, as the `Irq_dt_iterator`
resolves it: `nextErr` models `it.next(devs) < 0` for this entry,
`isVirt` is `it.ic_is_virt()`, `line` is `it.irq()`. -/
structure IrqEntry where
  nextErr : Bool
  isVirt : Bool
  line : Nat
deriving DecidableEq

/-- A device tree node as this core reads it: the reg property (presence
flag and per-index translation results), the interrupt list (presence
flag and resolved entries in order) and the `l4vmm,vbus-dev` property. -/
structure Dt_node where
  hasReg : Bool
  regs : List RegVal
  hasIrqs : Bool
  irqs : List IrqEntry
  vbusDev : Option String
deriving DecidableEq

/-- `node.get_reg_val(i, ...)`: `none` is `ERR_BAD_INDEX`. -/
def Dt_node.get_reg_val (node : Dt_node) (i : Nat) : Option RegVal :=
  node.regs.get? i

/-- Loop body of `num_reg_entries`: count entries until `ERR_BAD_INDEX`;
any other negative return is a fatal configuration error. -/
def countRegs : List RegVal → Except Err Nat
  | [] => .ok 0
  | .ok _ _ :: rest => (countRegs rest).map (· + 1)
  | _ :: _ => .error .configError

/-- `num_reg_entries` (part_000, lines 71-89): a node without mmio regs
counts 0 without iterating. -/
def num_reg_entries (node : Dt_node) : Except Err Nat :=
  if node.hasReg then countRegs node.regs else .ok 0

/-- Loop body of `num_interrupts`: count entries until the iterator's
`-L4_ERANGE` sentinel; a failing `next` is a fatal configuration error. -/
def countIrqs : List IrqEntry → Except Err Nat
  | [] => .ok 0
  | e :: rest =>
      if e.nextErr then .error .configError else (countIrqs rest).map (· + 1)

/-- `num_interrupts` (part_000, lines 91-110). -/
def num_interrupts (node : Dt_node) : Except Err Nat :=
  if node.hasIrqs then countIrqs node.irqs else .ok 0

/-- Guest-side configuration.  Modelled from the spec:
`validRegions` are the declared-valid guest address windows that
`vmm->mmio_region_valid` checks against. -/
structure GuestCfg where
  validRegions : List (Nat × Nat)
deriving DecidableEq

/-- Modelled from the spec: `vmm->mmio_region_valid(addr, size)` holds
when the guest range lies within some declared-valid window
`(start, size)`. -/
def GuestCfg.mmio_region_valid (g : GuestCfg) (addr size : Nat) : Bool :=
  g.validRegions.any (fun w => w.1 ≤ addr && addr + size ≤ w.1 + w.2)

/-- Loop of `F::check_regs` (part_000, lines 130-163) over the successive
`get_reg_val` results: reaching the end (`ERR_BAD_INDEX`) is success; a
translated range outside the valid windows, `ERR_RANGE` or any other
negative result is failure; `ERR_NOT_TRANSLATABLE` entries are skipped. -/
def check_regs_go (g : GuestCfg) : List RegVal → Bool
  | [] => true
  | .ok addr size :: rest =>
      if !(g.mmio_region_valid addr size) then false else check_regs_go g rest
  | .notTranslatable :: rest => check_regs_go g rest
  | .errRange :: _ => false
  | .errOther :: _ => false

/-- `F::check_regs`: a node without a reg property validates successfully
without iterating. -/
def check_regs (g : GuestCfg) (node : Dt_node) : Bool :=
  if !node.hasReg then true else check_regs_go g node.regs

/-- The per-entry acceptance predicate that `check_regs` implements. -/
def regOkFor (g : GuestCfg) : RegVal → Bool
  | .ok addr size => g.mmio_region_valid addr size
  | .notTranslatable => true
  | .errRange => false
  | .errOther => false

theorem check_regs_go_eq_all (g : GuestCfg) (l : List RegVal) :
    check_regs_go g l = l.all (regOkFor g) := by
  induction l with
  | nil => rfl
  | cons e rest ih =>
      cases e with
      | ok addr size =>
          by_cases h : g.mmio_region_valid addr size = true
          · simp [check_regs_go, regOkFor, ih, h]
          · simp [check_regs_go, regOkFor, h]
      | notTranslatable => simp [check_regs_go, regOkFor, ih]
      | errRange => simp [check_regs_go, regOkFor]
      | errOther => simp [check_regs_go, regOkFor]

/-- A concrete guest configuration for witnesses: one valid window
covering [0x0, 0xffffffff]. -/
def g0 : GuestCfg := ⟨[(0, 0x100000000)]⟩

/-- A node without a reg property (used by the C7 witness). -/
def nodeNoReg : Dt_node :=
  { hasReg := false, regs := [.errOther], hasIrqs := false, irqs := [], vbusDev := none }

/-- C7: outcome mapping of reg-entry validation.  A node with no reg
property validates without iterating; otherwise validation succeeds
exactly when every `get_reg_val` outcome before the `ERR_BAD_INDEX`
sentinel is acceptable: a successful translation must lie inside a
declared-valid guest window, `ERR_NOT_TRANSLATABLE` is skipped, and
`ERR_RANGE` or any other negative outcome fails; the per-constructor
equations spell the step behavior out. -/
theorem check_regs_outcome_map (g : GuestCfg) (node : Dt_node) :
    (node.hasReg = false → check_regs g node = true)
    ∧ (check_regs g node = true ↔
        (node.hasReg = false ∨ node.regs.all (regOkFor g) = true))
    ∧ (∀ addr size l, check_regs_go g (.ok addr size :: l)
        = (g.mmio_region_valid addr size && check_regs_go g l))
    ∧ (∀ l, check_regs_go g (.notTranslatable :: l) = check_regs_go g l)
    ∧ (∀ l, check_regs_go g (.errRange :: l) = false)
    ∧ (∀ l, check_regs_go g (.errOther :: l) = false)
    ∧ check_regs_go g [] = true := by
  refine ⟨?_, ?_, ?_, fun _ => rfl, fun _ => rfl, fun _ => rfl, rfl⟩
  · intro h
    simp [check_regs, h]
  · cases h : node.hasReg with
    | false => simp [check_regs, h]
    | true => simp [check_regs, h, check_regs_go_eq_all]
  · intro addr size l
    by_cases h : g.mmio_region_valid addr size = true
    · simp [check_regs_go, h]
    · simp [check_regs_go, h]

/-- Closed witness for C7: a node with no reg property validates, and a
node whose single entry translates inside the valid window validates. -/
theorem check_regs_outcome_map_witness :
    check_regs g0 nodeNoReg = true
      ∧ check_regs g0 { nodeNoReg with hasReg := true, regs := [.ok 0x1000 0x1000] } = true :=
  ⟨(check_regs_outcome_map g0 nodeNoReg).1 rfl,
   (check_regs_outcome_map g0
      { nodeNoReg with hasReg := true, regs := [.ok 0x1000 0x1000] }).2.1.mpr
     (Or.inr (by decide))⟩

/-- Pass 1 of `F::check_and_bind_irqs` (part_000, lines 173-184), a
do/while loop over the interrupt iterator: a failed `next` or a
virtual-controller line not available on the vbus aborts with failure;
the loop exits successfully once `has_next()` is false.  (Calling the
loop on an empty interrupt list would make the first `next` fail, hence
`false` for `[]`.) -/
def checkLoop (v : VbusState) : List IrqEntry → Bool
  | [] => false
  | e :: rest =>
      if e.nextErr then false
      else if e.isVirt && !(v.irq_present e.line) then false
      else if rest.isEmpty then true
      else checkLoop v rest

/-- Pass 2 of `F::check_and_bind_irqs` (part_000, lines 187-200): bind
every virtual-controller line with `io_irq = dt_irq` and mark it
consumed on the vbus.  Only reached after pass 1 succeeded, so the list
is non-empty and every `next` succeeds. -/
def bindLoop : BindCtx → List IrqEntry → Except Err BindCtx
  | ctx, [] => .ok ctx
  | ctx, e :: rest =>
      if e.isVirt then
        match bind_irq ctx e.line e.line with
        | .error er => .error er
        | .ok c => bindLoop { c with vbus := c.vbus.mark_irq_bound e.line } rest
      else bindLoop ctx rest

/-- `F::check_and_bind_irqs` (part_000, lines 165-203): nothing to do
without interrupts; otherwise pass 1 validates all lines with no side
effects and pass 2 runs only on full success of pass 1. -/
def check_and_bind_irqs (ctx : BindCtx) (node : Dt_node) : Except Err (Bool × BindCtx) :=
  if !node.hasIrqs then .ok (true, ctx)
  else if !(checkLoop ctx.vbus node.irqs) then .ok (false, ctx)
  else
    match bindLoop ctx node.irqs with
    | .error e => .error e
    | .ok c => .ok (true, c)

/-- A node declaring exactly two virtual-controller interrupt lines. -/
def twoLineNode (l1 l2 : Nat) : Dt_node :=
  { hasReg := false, regs := [], hasIrqs := true,
    irqs := [⟨false, true, l1⟩, ⟨false, true, l2⟩], vbusDev := none }

/-- C3: two-pass irq validation is all-or-nothing per node.  Whenever
pass 1 fails, `check_and_bind_irqs` returns `false` with the state
completely unchanged (pass 2 never runs); in particular a node declaring
two virtual-controller lines whose second is already consumed on the bus
leaves the state — and hence the first line's binding — untouched. -/
theorem check_and_bind_irqs_atomic :
    (∀ (ctx : BindCtx) (node : Dt_node), node.hasIrqs = true →
        checkLoop ctx.vbus node.irqs = false →
        check_and_bind_irqs ctx node = .ok (false, ctx))
    ∧ (∀ (ctx : BindCtx) (l1 l2 : Nat),
        ctx.vbus.irq_present l1 = true →
        ctx.vbus.irq_present l2 = false →
        check_and_bind_irqs ctx (twoLineNode l1 l2) = .ok (false, ctx)
          ∧ (check_and_bind_irqs ctx (twoLineNode l1 l2)).map
              (fun r => r.2.ic.get_irq_source l1)
              = .ok (ctx.ic.get_irq_source l1)) := by
  constructor
  · intro ctx node h1 h2
    simp [check_and_bind_irqs, h1, h2]
  · intro ctx l1 l2 h1 h2
    have hloop : checkLoop ctx.vbus (twoLineNode l1 l2).irqs = false := by
      simp [twoLineNode, checkLoop, h1, h2]
    have hres : check_and_bind_irqs ctx (twoLineNode l1 l2) = .ok (false, ctx) := by
      simp [check_and_bind_irqs, twoLineNode, hloop]
      simp [twoLineNode] at hloop
      simp [hloop]
    exact ⟨hres, by rw [hres]; rfl⟩

/-- A concrete state for the C3 witness: lines 4 and 6 present on the
bus, line 6 already consumed, nothing bound at the controller. -/
def ctx2 : BindCtx :=
  { ic := ⟨[]⟩, registry := [],
    vbus := { present := [4, 6], consumed := [6], icuBound := [] } }

/-- Closed witness for C3: with line 4 available and line 6 consumed,
a node declaring virtual lines 4 then 6 binds nothing at all. -/
theorem check_and_bind_irqs_atomic_witness :
    check_and_bind_irqs ctx2 (twoLineNode 4 6) = .ok (false, ctx2)
      ∧ (check_and_bind_irqs ctx2 (twoLineNode 4 6)).map
          (fun r => r.2.ic.get_irq_source 4)
          = .ok (ctx2.ic.get_irq_source 4) :=
  check_and_bind_irqs_atomic.2 ctx2 4 6 (by decide) (by decide)

deriving instance DecidableEq for Except

theorem get_irq_source_cons (l : List (Nat × IrqSource)) (dt d : Nat) (src : IrqSource) :
    Ic.get_irq_source ⟨(dt, src) :: l⟩ d
      = if dt = d then some src else Ic.get_irq_source ⟨l⟩ d := by
  unfold Ic.get_irq_source
  by_cases h : dt = d
  · subst h
    simp [List.find?]
  · have hb : (dt == d) = false := by simp [h]
    simp [List.find?, hb, h]

/-- Any source visible after a successful `bind_irq` was either already
bound before the call or is the freshly created forwarding endpoint over
`io_irq` at `dt_irq`. -/
theorem bind_irq_sources (ctx : BindCtx) (dt_irq io_irq : Nat) (c : BindCtx)
    (h : bind_irq ctx dt_irq io_irq = .ok c) :
    ∀ d s, c.ic.get_irq_source d = some s →
      ctx.ic.get_irq_source d = some s ∨ (d = dt_irq ∧ s = .irqSvr io_irq) := by
  intro d s hs
  unfold bind_irq at h
  split at h
  · injection h with h
    subst h
    have hs' : Ic.get_irq_source ⟨(dt_irq, .irqSvr io_irq) :: ctx.ic.sources⟩ d
        = some s := hs
    rw [get_irq_source_cons] at hs'
    by_cases hd : dt_irq = d
    · rw [if_pos hd] at hs'
      injection hs' with hs'
      exact Or.inr ⟨hd.symm, hs'.symm⟩
    · rw [if_neg hd] at hs'
      exact Or.inl hs'
  · rename_i bound hg
    by_cases hio : io_irq = bound
    · rw [if_pos hio] at h
      injection h with h
      subst h
      exact Or.inl hs
    · rw [if_neg hio] at h
      exact absurd h (by simp)
  · exact absurd h (by simp)

/-- Any source visible after pass 2 was either already bound before or
is an identity-mapped forwarding endpoint (`io_line = dt_line`). -/
theorem bindLoop_sources (l : List IrqEntry) :
    ∀ ctx c, bindLoop ctx l = .ok c →
      ∀ d s, c.ic.get_irq_source d = some s →
        ctx.ic.get_irq_source d = some s ∨ s = .irqSvr d := by
  induction l with
  | nil =>
      intro ctx c h d s hs
      unfold bindLoop at h
      injection h with h
      subst h
      exact Or.inl hs
  | cons e rest ih =>
      intro ctx c h d s hs
      unfold bindLoop at h
      by_cases hv : e.isVirt = true
      · rw [if_pos (by simp [hv])] at h
        cases hb : bind_irq ctx e.line e.line with
        | error er => rw [hb] at h; exact absurd h (by simp)
        | ok c1 =>
            rw [hb] at h
            cases ih _ _ h d s hs with
            | inr h2 => exact Or.inr h2
            | inl h1 =>
                have h1' : c1.ic.get_irq_source d = some s := h1
                cases bind_irq_sources ctx e.line e.line c1 hb d s h1' with
                | inl h3 => exact Or.inl h3
                | inr h3 =>
                    refine Or.inr ?_
                    rw [h3.2, h3.1]
      · rw [if_neg (by simp [hv])] at h
        exact ih _ _ h d s hs

/-- C10: every irq binding the generic-passthrough path creates is
identity-mapped — after `check_and_bind_irqs`, any source bound at a
line `d` that was not bound before is a forwarding endpoint whose
physical line equals `d` (pass 2 calls `bind_irq` with
`io_irq = dt_irq`). -/
theorem check_and_bind_irqs_identity (ctx : BindCtx) (node : Dt_node)
    (b : Bool) (c : BindCtx)
    (h : check_and_bind_irqs ctx node = .ok (b, c)) :
    ∀ d s, c.ic.get_irq_source d = some s →
      ctx.ic.get_irq_source d = some s ∨ s = .irqSvr d := by
  unfold check_and_bind_irqs at h
  by_cases h1 : node.hasIrqs = true
  · rw [h1] at h
    simp only [Bool.not_true, Bool.false_eq_true, if_false] at h
    by_cases h2 : checkLoop ctx.vbus node.irqs = true
    · rw [h2] at h
      simp only [Bool.not_true, Bool.false_eq_true, if_false] at h
      cases hb : bindLoop ctx node.irqs with
      | error e => rw [hb] at h; exact absurd h (by simp)
      | ok c' =>
          rw [hb] at h
          injection h with h
          have hc : c' = c := congrArg Prod.snd h
          subst hc
          exact bindLoop_sources node.irqs ctx c' hb
    · rw [Bool.not_eq_true] at h2
      rw [h2] at h
      simp only [Bool.not_false, if_true] at h
      injection h with h
      have hc : ctx = c := congrArg Prod.snd h
      intro d s hs
      exact Or.inl (hc ▸ hs)
  · rw [Bool.not_eq_true] at h1
    rw [h1] at h
    simp only [Bool.not_false, if_true] at h
    injection h with h
    have hc : ctx = c := congrArg Prod.snd h
    intro d s hs
    exact Or.inl (hc ▸ hs)

/-- A concrete node and state for the C10 witness: one virtual line 4,
available on the bus. -/
def ctx4 : BindCtx :=
  { ic := ⟨[]⟩, registry := [],
    vbus := { present := [4], consumed := [], icuBound := [] } }

def node4 : Dt_node :=
  { hasReg := false, regs := [], hasIrqs := true,
    irqs := [⟨false, true, 4⟩], vbusDev := none }

/-- Result state of binding `node4` from `ctx4`. -/
def ctx4c : BindCtx :=
  { ic := ⟨[(4, .irqSvr 4)]⟩, registry := [4],
    vbus := { present := [4], consumed := [4], icuBound := [4] } }

/-- Closed witness for C10 at a concrete run. -/
theorem check_and_bind_irqs_identity_witness :
    ctx4.ic.get_irq_source 4 = some (.irqSvr 4)
      ∨ (IrqSource.irqSvr 4) = .irqSvr 4 :=
  check_and_bind_irqs_identity ctx4 node4 true ctx4c (by decide) 4
    (.irqSvr 4) (by decide)

def u32Mod : Nat := 4294967296

def u64Mod : Nat := 18446744073709551616

/-- `--counter` on a C `unsigned`: decrement modulo 2^32, wrapping at 0. -/
def decU32 (n : Nat) : Nat := (n + (u32Mod - 1)) % u32Mod

/-- Type of an `l4vbus_resource_t`: `L4VBUS_RESOURCE_MEM`,
`L4VBUS_RESOURCE_IRQ`, or anything else (ignored by the matcher). -/
inductive ResType
  | mem
  | irq
  | otherRes
deriving DecidableEq

/-- One vbus resource: its type, the first four characters of its id
(the name the matcher parses) and its physical start/end addresses
(64-bit values). -/
structure VbusResource where
  rtype : ResType
  name : List Char
  start : Nat
  endAddr : Nat
deriving DecidableEq

/-- `res.end - res.start + 1` computed on 64-bit unsigned values. -/
def memResSize (r : VbusResource) : Nat :=
  (r.endAddr + (u64Mod - r.start) + 1) % u64Mod

/-- A physical device on the vbus: hardware id, ordered resource list,
and the assigned flag set by `set_proxy`. -/
structure VbusDevice where
  hid : String
  resources : List VbusResource
  assigned : Bool
deriving DecidableEq

/-- The matcher's name check
`strncmp(resname, pre, 3) || resname[3] < '0' || resname[3] > '9'`:
accept exactly names whose first three characters are `p0 p1 p2` and
whose fourth is a digit, returning that digit. -/
def resNameDigit (p0 p1 p2 : Char) : List Char → Option Nat
  | a :: b :: c :: d :: _ =>
      if a = p0 ∧ b = p1 ∧ c = p2 ∧ '0' ≤ d ∧ d ≤ '9' then
        some (d.toNat - '0'.toNat)
      else none
  | _ => none

/-- The `Irq_dt_iterator`, modelled from the spec (§4.2): it starts out
before the first entry of the node's interrupt list, `next()` loads the
following entry (answering the out-of-range sentinel past the end), and
`ic_is_virt()`/`irq()` read the entry loaded by the last successful
`next()` — `none` when `next()` has never been called successfully, a
state in which no contract defines the accessors. -/
structure IrqIt where
  current : Option IrqEntry
  rest : List IrqEntry
deriving DecidableEq

def IrqIt.start (node : Dt_node) : IrqIt := ⟨none, node.irqs⟩

def IrqIt.next : IrqIt → IrqIt
  | ⟨cur, []⟩ => ⟨cur, []⟩
  | ⟨_, e :: rest⟩ => ⟨some e, rest⟩

/-- `for (unsigned n = 0; n < resid; ++n) it.next(devs);` — advance the
iterator `resid` times, ignoring the return values. -/
def IrqIt.advance : IrqIt → Nat → IrqIt
  | it, 0 => it
  | it, n + 1 => IrqIt.advance it.next n

/-- Loop state of the resource scan in `create_from_vbus_dev`: the bind
state, the MMIO registrations made so far (guest address, size, and the
physical start used as dataspace offset for the `Ds_handler`), and the
two outstanding counters (C `unsigned`, hence wrapping). -/
structure ScanSt where
  ctx : BindCtx
  mmio : List (Nat × Nat × Nat)
  todoRegs : Nat
  todoIrqs : Nat
deriving DecidableEq

/-- One iteration of the resource loop of `create_from_vbus_dev`
(part_000, lines 225-302).  Memory resources named `reg<d>` must match
reg entry `d` exactly in size, register an MMIO region and decrement
the reg counter; a missing entry (`ERR_BAD_INDEX`) is a fatal count
mismatch, any other `get_reg_val` failure a fatal configuration error.
Interrupt resources named `irq<d>` must have `d < todo_irqs`; the loop
then advances a fresh iterator `d` times and reads the loaded entry —
for `d = 0` no `next()` has run, which the embedding surfaces as
`undefinedIterAccess`.  Unrecognised names and other resource types are
skipped. -/
def procRes (node : Dt_node) (s : ScanSt) (r : VbusResource) : Except Err ScanSt :=
  match r.rtype with
  | .mem =>
      match resNameDigit 'r' 'e' 'g' r.name with
      | none => .ok s
      | some resid =>
          match node.get_reg_val resid with
          | some (.ok dtaddr dtsize) =>
              if memResSize r ≠ dtsize then .error .resourceMismatch
              else .ok { s with
                         mmio := (dtaddr, dtsize, r.start) :: s.mmio,
                         todoRegs := decU32 s.todoRegs }
          | some _ => .error .configError
          | none => .error .resourceMismatch
  | .irq =>
      match resNameDigit 'i' 'r' 'q' r.name with
      | none => .ok s
      | some resid =>
          if s.todoIrqs ≤ resid then .error .resourceMismatch
          else
            match ((IrqIt.start node).advance resid).current with
            | none => .error .undefinedIterAccess
            | some e =>
                if e.isVirt then
                  match bind_irq s.ctx e.line r.start with
                  | .error er => .error er
                  | .ok c => .ok { s with ctx := c, todoIrqs := decU32 s.todoIrqs }
                else .ok { s with todoIrqs := decU32 s.todoIrqs }
  | .otherRes => .ok s

/-- The resource loop of `create_from_vbus_dev` over all resource
slots. -/
def procLoop (node : Dt_node) : ScanSt → List VbusResource → Except Err ScanSt
  | s, [] => .ok s
  | s, r :: rest =>
      match procRes node s r with
      | .error e => .error e
      | .ok s' => procLoop node s' rest

/-- Process-wide state of the proxy factory: bind state, registered MMIO
regions, the vbus device table, and the `phys_dev_prepared` flag. -/
structure SysState where
  ctx : BindCtx
  mmio : List (Nat × Nat × Nat)
  vbusDevices : List VbusDevice
  prepared : Bool
deriving DecidableEq

/-- `vbus->find_unassigned_device_by_hid(hid)`. -/
def find_unassigned_device_by_hid (devs : List VbusDevice) (hid : String) :
    Option VbusDevice :=
  devs.find? (fun d => d.hid == hid && !d.assigned)

/-- `vdev->set_proxy(device)`: claim the first unassigned device with
this hid. -/
def set_proxy : List VbusDevice → String → List VbusDevice
  | [], _ => []
  | d :: rest, hid =>
      if d.hid == hid && !d.assigned then { d with assigned := true } :: rest
      else d :: set_proxy rest hid

/-- The created passthrough device: a proxy over the matched vbus
device's io capability (named path), or over an empty `L4vbus::Device`
(generic path). -/
inductive IoProxyDev
  | fromVbusDev (hid : String)
  | generic
deriving DecidableEq

/-- `F::create_from_vbus_dev` (part_000, lines 205-322): look up an
unassigned vbus device by hid (absence is non-fatal: no device), count
the node's expected reg/irq entries (malformed descriptors are fatal),
scan all resource slots, and finally require both outstanding counters
to be zero (any remainder is a fatal `-L4_EINVAL`); on success the
device is claimed and the proxy returned. -/
def create_from_vbus_dev (st : SysState) (node : Dt_node) (hid : String) :
    Except Err (Option IoProxyDev × SysState) :=
  match find_unassigned_device_by_hid st.vbusDevices hid with
  | none => .ok (none, st)
  | some vdev =>
      match num_reg_entries node with
      | .error e => .error e
      | .ok todoRegs =>
          match num_interrupts node with
          | .error e => .error e
          | .ok todoIrqs =>
              match procLoop node ⟨st.ctx, st.mmio, todoRegs, todoIrqs⟩
                  vdev.resources with
              | .error e => .error e
              | .ok s =>
                  if 0 < s.todoRegs then .error .resourceMismatch
                  else if 0 < s.todoIrqs then .error .resourceMismatch
                  else .ok (some (.fromVbusDev hid),
                            { st with ctx := s.ctx, mmio := s.mmio,
                                      vbusDevices := set_proxy st.vbusDevices hid })

/-- `Io_proxy::prepare_factory` (part_000, lines 119-124): run the bulk
resource collection (external pre-mapping of all physical-bus resources,
spec §4.4) and set the process-wide `phys_dev_prepared` flag.  The flag
is never reset anywhere in the source. -/
def prepare_factory (st : SysState) : SysState :=
  { st with prepared := true }

/-- Outcome of `F::create` for one node: a created device, or one of the
non-fatal no-device outcomes, each corresponding to one logged
diagnostic and `return nullptr` site in the source. -/
inductive CreateOutcome
  | created (dev : IoProxyDev)
  | noDeviceUnavailable
  | noDeviceOrderingViolation
  | noDeviceBadRegs
  | noDeviceIrqUnavailable
deriving DecidableEq

/-- `F::create` (part_000, lines 324-348): a node with an
`l4vmm,vbus-dev` property takes the named path; otherwise the generic
path requires `phys_dev_prepared` (else the OrderingViolation
diagnostic is logged and only this node is skipped), then validates the
reg entries and checks-and-binds the irqs. -/
def create (g : GuestCfg) (st : SysState) (node : Dt_node) :
    Except Err (CreateOutcome × SysState) :=
  match node.vbusDev with
  | some hid =>
      match create_from_vbus_dev st node hid with
      | .error e => .error e
      | .ok (some d, st') => .ok (.created d, st')
      | .ok (none, st') => .ok (.noDeviceUnavailable, st')
  | none =>
      if !st.prepared then .ok (.noDeviceOrderingViolation, st)
      else if !(check_regs g node) then .ok (.noDeviceBadRegs, st)
      else
        match check_and_bind_irqs st.ctx node with
        | .error e => .error e
        | .ok (false, c) => .ok (.noDeviceIrqUnavailable, { st with ctx := c })
        | .ok (true, c) => .ok (.created .generic, { st with ctx := c })

/-- The device tree node of the spec's named-path example: one reg entry
`(0x1000, 0x1000)` and one interrupt entry resolving to a virtual
controller at line 42. -/
def nodeC4 : Dt_node :=
  { hasReg := true, regs := [.ok 0x1000 0x1000], hasIrqs := true,
    irqs := [⟨false, true, 42⟩], vbusDev := some "phys-dev" }

/-- The physical device of the spec's named-path example: memory resource
`reg0` over `[0x1000, 0x1fff]` and interrupt resource `irq0` with
physical line 5. -/
def devC4 : VbusDevice :=
  { hid := "phys-dev",
    resources := [⟨.mem, ['r', 'e', 'g', '0'], 0x1000, 0x1fff⟩,
                  ⟨.irq, ['i', 'r', 'q', '0'], 5, 5⟩],
    assigned := false }

def stC4 : SysState :=
  { ctx := ⟨⟨[]⟩, [], ⟨[5, 42], [], []⟩⟩, mmio := [],
    vbusDevices := [devC4], prepared := true }

/-- C4: evaluating the matcher at the spec's named-path example.  The
memory half behaves as claimed — scanning `reg0` alone registers exactly
the MMIO mapping (guest 0x1000, size 0x1000, physical start 0x1000) —
but the interrupt half does not produce the binding
`dt_line 42 → io_line 5`: since the re-walk loop advances a fresh
iterator only `resid` times (`for (n = 0; n < resid; ++n) it.next()`),
for `irq0` it reads `ic_is_virt()`/`irq()` with no entry ever loaded
(third conjunct), although a single `next()` — which indexing entry 0
by re-walking requires — would have loaded the (virtual, line 42) entry
(fourth conjunct).  The full scan therefore faults instead of creating
the device with the claimed binding. -/
theorem create_from_vbus_dev_named_example :
    procLoop nodeC4 ⟨stC4.ctx, [], 1, 1⟩ [⟨.mem, ['r', 'e', 'g', '0'], 0x1000, 0x1fff⟩]
        = .ok ⟨stC4.ctx, [(0x1000, 0x1000, 0x1000)], 0, 1⟩
      ∧ create_from_vbus_dev stC4 nodeC4 "phys-dev" = .error .undefinedIterAccess
      ∧ ((IrqIt.start nodeC4).advance 0).current = none
      ∧ (IrqIt.start nodeC4).next.current = some ⟨false, true, 42⟩ := by
  decide

theorem procLoop_append (node : Dt_node) (l1 l2 : List VbusResource) (s : ScanSt) :
    procLoop node s (l1 ++ l2)
      = match procLoop node s l1 with
        | .error e => .error e
        | .ok s' => procLoop node s' l2 := by
  induction l1 generalizing s with
  | nil => rfl
  | cons r rest ih =>
      rw [List.cons_append]
      cases hres : procRes node s r with
      | error e => simp only [procLoop, hres]
      | ok s' =>
          simp only [procLoop, hres]
          exact ih s'

/-- A memory resource named `reg<d>` whose size differs from its matched
reg entry makes the resource scan fail at once with the fatal
`-L4_ENOMEM` size check. -/
theorem procLoop_size_mismatch (node : Dt_node) (s : ScanSt) (r : VbusResource)
    (rest : List VbusResource) (resid dtaddr dtsize : Nat)
    (ht : r.rtype = .mem)
    (hn : resNameDigit 'r' 'e' 'g' r.name = some resid)
    (hg : node.get_reg_val resid = some (.ok dtaddr dtsize))
    (hm : memResSize r ≠ dtsize) :
    procLoop node s (r :: rest) = .error .resourceMismatch := by
  simp only [procLoop, procRes, ht, hn, hg]
  rw [if_pos hm]

/-- C5: in the named-device path, a memory resource named `reg<d>`
matched against reg entry `d` whose declared size differs from
`end - start + 1` of the physical resource makes `create_from_vbus_dev`
fail with ResourceMismatch wherever it occurs in the scan, so no proxy
device is created. -/
theorem create_reg_size_mismatch (st : SysState) (node : Dt_node)
    (hid : String) (vdev : VbusDevice) (pre rest : List VbusResource)
    (r : VbusResource) (s : ScanSt)
    (todoRegs todoIrqs resid dtaddr dtsize : Nat)
    (hf : find_unassigned_device_by_hid st.vbusDevices hid = some vdev)
    (h1 : num_reg_entries node = .ok todoRegs)
    (h2 : num_interrupts node = .ok todoIrqs)
    (hres : vdev.resources = pre ++ r :: rest)
    (hpre : procLoop node ⟨st.ctx, st.mmio, todoRegs, todoIrqs⟩ pre = .ok s)
    (ht : r.rtype = .mem)
    (hn : resNameDigit 'r' 'e' 'g' r.name = some resid)
    (hg : node.get_reg_val resid = some (.ok dtaddr dtsize))
    (hm : memResSize r ≠ dtsize) :
    create_from_vbus_dev st node hid = .error .resourceMismatch := by
  have hloop : procLoop node ⟨st.ctx, st.mmio, todoRegs, todoIrqs⟩ vdev.resources
      = .error .resourceMismatch := by
    rw [hres, procLoop_append, hpre]
    exact procLoop_size_mismatch node s r rest resid dtaddr dtsize ht hn hg hm
  simp only [create_from_vbus_dev, hf, h1, h2, hloop]

/-- Node and device for the C5 witness: reg entry size 0x800 against a
physical resource of size 0x1000. -/
def nodeC5 : Dt_node :=
  { hasReg := true, regs := [.ok 0x1000 0x800], hasIrqs := false,
    irqs := [], vbusDev := some "d5" }

def devC5 : VbusDevice :=
  { hid := "d5", resources := [⟨.mem, ['r', 'e', 'g', '0'], 0x1000, 0x1fff⟩],
    assigned := false }

def stC5 : SysState :=
  { ctx := ⟨⟨[]⟩, [], ⟨[], [], []⟩⟩, mmio := [], vbusDevices := [devC5],
    prepared := true }

/-- Closed witness for C5 at a concrete mismatching input. -/
theorem create_reg_size_mismatch_witness :
    create_from_vbus_dev stC5 nodeC5 "d5" = .error .resourceMismatch :=
  create_reg_size_mismatch stC5 nodeC5 "d5" devC5 [] []
    ⟨.mem, ['r', 'e', 'g', '0'], 0x1000, 0x1fff⟩
    ⟨stC5.ctx, stC5.mmio, 1, 0⟩ 1 0 0 0x1000 0x800
    (by decide) (by decide) (by decide) (by decide) (by decide)
    (by decide) (by decide) (by decide) (by decide)

/-- Node, device and state realising the spec's 2-resources example:
a node declaring one reg entry and no irq entries, a physical device
advertising two resources (`reg0` of matching size, then `irq0`). -/
def nodeC6 : Dt_node :=
  { hasReg := true, regs := [.ok 0x2000 0x1000], hasIrqs := false,
    irqs := [], vbusDev := some "d6" }

def devC6 : VbusDevice :=
  { hid := "d6",
    resources := [⟨.mem, ['r', 'e', 'g', '0'], 0x2000, 0x2fff⟩,
                  ⟨.irq, ['i', 'r', 'q', '0'], 9, 9⟩],
    assigned := false }

def stC6 : SysState :=
  { ctx := ⟨⟨[]⟩, [], ⟨[9], [], []⟩⟩, mmio := [], vbusDevices := [devC6],
    prepared := true }

/-- A device whose two resources have unrecognised names, so the scan
skips both and the reg counter is left at 1 (for the C6 witness of the
post-scan check). -/
def devC6b : VbusDevice :=
  { hid := "d6b",
    resources := [⟨.mem, ['f', 'o', 'o', '0'], 0x2000, 0x2fff⟩,
                  ⟨.otherRes, ['b', 'a', 'r', '0'], 0, 0⟩],
    assigned := false }

def stC6b : SysState :=
  { ctx := ⟨⟨[]⟩, [], ⟨[], [], []⟩⟩, mmio := [], vbusDevices := [devC6b],
    prepared := true }

/-- C6: after the named-path scan, both outstanding counters must be
zero — whenever the scan completes with a positive remainder in either
counter, `create_from_vbus_dev` fails with ResourceMismatch and no
device is created; and in particular the spec's example of a physical
device advertising 2 resources against a node declaring 1 reg entry
and 0 irq entries fails with ResourceMismatch. -/
theorem create_leftover_resources_mismatch :
    (∀ (st : SysState) (node : Dt_node) (hid : String) (vdev : VbusDevice)
        (todoRegs todoIrqs : Nat) (s : ScanSt),
        find_unassigned_device_by_hid st.vbusDevices hid = some vdev →
        num_reg_entries node = .ok todoRegs →
        num_interrupts node = .ok todoIrqs →
        procLoop node ⟨st.ctx, st.mmio, todoRegs, todoIrqs⟩ vdev.resources = .ok s →
        (0 < s.todoRegs ∨ 0 < s.todoIrqs) →
        create_from_vbus_dev st node hid = .error .resourceMismatch)
    ∧ create_from_vbus_dev stC6 nodeC6 "d6" = .error .resourceMismatch := by
  constructor
  · intro st node hid vdev todoRegs todoIrqs s hf h1 h2 hl hr
    simp only [create_from_vbus_dev, hf, h1, h2, hl]
    by_cases h : 0 < s.todoRegs
    · rw [if_pos h]
    · rw [if_neg h, if_pos (hr.resolve_left h)]
  · decide

/-- Closed witness for C6's general part: both resources skipped by
name, reg counter left at 1, hence ResourceMismatch. -/
theorem create_leftover_resources_mismatch_witness :
    create_from_vbus_dev stC6b nodeC6 "d6b" = .error .resourceMismatch :=
  create_leftover_resources_mismatch.1 stC6b nodeC6 "d6b" devC6b 1 0
    ⟨stC6b.ctx, stC6b.mmio, 1, 0⟩ (by decide) (by decide) (by decide)
    (by decide) (Or.inl (by decide))

/-- `create_from_vbus_dev` never touches the `phys_dev_prepared` flag. -/
theorem create_from_vbus_dev_prepared (st : SysState) (node : Dt_node)
    (hid : String) (o : Option IoProxyDev) (st' : SysState)
    (h : create_from_vbus_dev st node hid = .ok (o, st')) :
    st'.prepared = st.prepared := by
  unfold create_from_vbus_dev at h
  split at h
  · injection h with h
    injection h with ho hs
    subst hs
    rfl
  · split at h
    · exact absurd h (by simp)
    · split at h
      · exact absurd h (by simp)
      · split at h
        · exact absurd h (by simp)
        · split at h
          · exact absurd h (by simp)
          · split at h
            · exact absurd h (by simp)
            · injection h with h
              injection h with ho hs
              subst hs
              rfl

/-- A node without an `l4vmm,vbus-dev` property (generic path) and an
unprepared state, for the C8 witness. -/
def nodeGeneric : Dt_node :=
  { hasReg := false, regs := [], hasIrqs := false, irqs := [], vbusDev := none }

def stUnprepared : SysState :=
  { ctx := ctx0, mmio := [], vbusDevices := [], prepared := false }

/-- C8: invoking the generic-passthrough path before the one-time bus
preparation fails for that node only — `create` returns the
OrderingViolation no-device outcome rather than an error, so guest
construction continues; `prepare_factory` sets the flag, `create` never
changes it (so once set it stays set), and once prepared the generic
path proceeds to validation (here: a failing reg validation is what
determines the outcome). -/
theorem create_ordering_violation :
    (∀ (g : GuestCfg) (st : SysState) (node : Dt_node),
        st.prepared = false → node.vbusDev = none →
        create g st node = .ok (.noDeviceOrderingViolation, st))
    ∧ (∀ st : SysState, (prepare_factory st).prepared = true)
    ∧ (∀ (g : GuestCfg) (st : SysState) (node : Dt_node),
        st.prepared = true → node.vbusDev = none →
        check_regs g node = false →
        create g st node = .ok (.noDeviceBadRegs, st))
    ∧ (∀ (g : GuestCfg) (st st' : SysState) (node : Dt_node) (r : CreateOutcome),
        create g st node = .ok (r, st') → st'.prepared = st.prepared) := by
  refine ⟨?_, fun _ => rfl, ?_, ?_⟩
  · intro g st node h1 h2
    simp [create, h1, h2]
  · intro g st node h1 h2 h3
    simp [create, h1, h2, h3]
  · intro g st st' node r h
    unfold create at h
    split at h
    · split at h
      · exact absurd h (by simp)
      · injection h with h
        injection h with ho hs
        subst hs
        rename_i heq
        exact create_from_vbus_dev_prepared _ _ _ _ _ heq
      · injection h with h
        injection h with ho hs
        subst hs
        rename_i heq
        exact create_from_vbus_dev_prepared _ _ _ _ _ heq
    · split at h
      · injection h with h
        injection h with ho hs
        subst hs
        rfl
      · split at h
        · injection h with h
          injection h with ho hs
          subst hs
          rfl
        · split at h
          · exact absurd h (by simp)
          · injection h with h
            injection h with ho hs
            subst hs
            rfl
          · injection h with h
            injection h with ho hs
            subst hs
            rfl

/-- Closed witness for C8: an unprepared state and a generic-path node
yield the OrderingViolation no-device outcome with the state unchanged. -/
theorem create_ordering_violation_witness :
    create g0 stUnprepared nodeGeneric
      = .ok (.noDeviceOrderingViolation, stUnprepared) :=
  create_ordering_violation.1 g0 stUnprepared nodeGeneric rfl rfl

/-- Result of one `fast_call` on the SMC transport (part_001,
lines 135-139): the call's return code and the four output registers.
Modelled from the spec: the capability/IPC transport is external, fixed
only through these results. -/
structure SmcRet where
  ret : Int
  p0 : Nat
  p1 : Nat
  p2 : Nat
  p3 : Nat
deriving DecidableEq

/-- The environment `Optee::map_optee_memory` probes: results of the
four handshake calls (trusted-OS uid, trusted-OS revision,
exchange-capabilities, get-shm-config). -/
structure SmcEnv where
  uidCall : SmcRet
  revCall : SmcRet
  exchCall : SmcRet
  shmCall : SmcRet
deriving DecidableEq

def Optee_uuid_word0 : Nat := 0x384fb3e0

def Optee_uuid_word1 : Nat := 0xe7f811e3

def Optee_uuid_word2 : Nat := 0xaf630002

def Optee_uuid_word3 : Nat := 0xa5d5c51b

def Optee_api_major : Nat := 2

def Optee_api_minor : Nat := 0

/-- Diagnostic logged by a failed handshake step of
`map_optee_memory`; the constructors correspond to the four
`warn.printf` + negative-return sites. -/
inductive OpteeDiag
  | notRunning
  | wrongApi
  | noSharedMemory
  | shmConfigFailed
deriving DecidableEq

/-- `Optee::map_optee_memory` (part_001, lines 83-132): confirm the
backing service's identity by the fixed OP-TEE UUID, verify API version
2.0, check the exported-shared-memory flag (`p[1] & 1`), then query the
shared-memory geometry; on success the range `[p1, p1 + p2 - 1]` is
registered as an MMIO region (returned here as base and size). -/
def map_optee_memory (env : SmcEnv) : Except OpteeDiag (Nat × Nat) :=
  if env.uidCall.ret < 0 ∨ env.uidCall.p0 ≠ Optee_uuid_word0
      ∨ env.uidCall.p1 ≠ Optee_uuid_word1
      ∨ env.uidCall.p2 ≠ Optee_uuid_word2
      ∨ env.uidCall.p3 ≠ Optee_uuid_word3 then .error .notRunning
  else if env.revCall.ret < 0 ∨ env.revCall.p0 ≠ Optee_api_major
      ∨ env.revCall.p1 ≠ Optee_api_minor then .error .wrongApi
  else if env.exchCall.ret < 0 ∨ env.exchCall.p0 ≠ 0
      ∨ env.exchCall.p1 % 2 ≠ 1 then .error .noSharedMemory
  else if env.shmCall.ret < 0 ∨ env.shmCall.p0 ≠ 0 then .error .shmConfigFailed
  else .ok (env.shmCall.p1, env.shmCall.p2)

/-- What the OP-TEE factory finds at a node: whether the `l4vmm,cap`
and `l4vmm,dscap` capabilities resolve, the SMC call results, whether
the node's first interrupt entry resolves (`it.next(devs) >= 0`) and to
what, and whether the capability also offers an ICU interface. -/
structure OpteeNodeEnv where
  cap : Bool
  dscap : Bool
  smc : SmcEnv
  irqNextOk : Bool
  irqEntry : IrqEntry
  icuCast : Bool
deriving DecidableEq

/-- Outcome of the OP-TEE factory: no device (missing capability or
failed handshake, carrying the logged diagnostic), or the created
device with its shared-memory mapping and whether a notification
interrupt was routed. -/
inductive OpteeCreateRes
  | noCap
  | noDsCap
  | handshakeFailed (diag : OpteeDiag)
  | created (shmBase shmSize : Nat) (irqBound : Bool)
deriving DecidableEq

/-- The OP-TEE factory `F::create` (part_001, lines 146-197): missing
capabilities disable the device; a failed shared-memory handshake
yields no device (non-fatal, diagnostic logged); with a resolvable
interrupt and an ICU-capable transport the notification interrupt is
routed, requiring a virtual interrupt controller (`-L4_EINVAL`
otherwise); without an ICU the absence of notifications is only
logged. -/
def optee_create (env : OpteeNodeEnv) : Except Err OpteeCreateRes :=
  if !env.cap then .ok .noCap
  else if !env.dscap then .ok .noDsCap
  else
    match map_optee_memory env.smc with
    | .error d => .ok (.handshakeFailed d)
    | .ok shm =>
        if env.irqNextOk then
          if env.icuCast then
            if !env.irqEntry.isVirt then .error .configError
            else .ok (.created shm.1 shm.2 true)
          else .ok (.created shm.1 shm.2 false)
        else .ok (.created shm.1 shm.2 false)

/-- C9: if the shared-memory capability handshake fails at any step
(identity, API version, export flag or geometry query), the OP-TEE
device is not created — the factory returns the no-device outcome
carrying the logged diagnostic instead of aborting guest
construction. -/
theorem optee_handshake_nonfatal (env : OpteeNodeEnv) (d : OpteeDiag)
    (h1 : env.cap = true) (h2 : env.dscap = true)
    (h3 : map_optee_memory env.smc = .error d) :
    optee_create env = .ok (.handshakeFailed d) := by
  simp [optee_create, h1, h2, h3]

/-- A concrete environment whose identity check fails (wrong UUID), for
the C9 witness. -/
def envC9 : OpteeNodeEnv :=
  { cap := true, dscap := true,
    smc := { uidCall := ⟨0, 0, 0, 0, 0⟩, revCall := ⟨0, 2, 0, 0, 0⟩,
             exchCall := ⟨0, 0, 1, 0, 0⟩, shmCall := ⟨0, 0, 0x8000, 0x1000, 0⟩ },
    irqNextOk := false, irqEntry := ⟨false, false, 0⟩, icuCast := false }

/-- Closed witness for C9 at a failing identity check. -/
theorem optee_handshake_nonfatal_witness :
    optee_create envC9 = .ok (.handshakeFailed .notRunning) :=
  optee_handshake_nonfatal envC9 .notRunning rfl rfl (by decide)

/-- Closed witness for C2: line 3 is bound to an endpoint over physical
line 7; requesting physical line 9 conflicts, reporting 7 and 9. -/
theorem bind_irq_conflict_witness :
    bind_irq ctx1 3 9 = .error (.irqConflict (some 7) 9) :=
  (bind_irq_conflict ctx1 3 9 7).1 (by decide) (by decide)
